import Mathlib

/-!
Shallow embedding of `src/backend/src/utils/enhanced_detection_fixed.py`
(class `EnhancedAnomalyDetector` and its helpers).

Modelling conventions:
* Python floats are modelled as rationals (`ℚ`); every constant in the
  source (0.1, 0.25, 0.5, 0.95, the normal ranges) is exactly
  representable, and no claim depends on float rounding.
* Python dicts keyed by parameter name are modelled as association lists
  (`List (String × ℚ)`); dicts keyed by patient id are modelled as
  functions `String → Option PatientBaseline` and
  `String → List AnomalyDetectionResult` (a missing history key behaves
  exactly like the empty list, since the code initialises it to `[]`
  before extending).
* `datetime` fields (`timestamp`, `last_updated`) are dropped: no claim
  inspects them, and they are written but never read on the code paths
  the claims concern.
* The ML-model initialisation (`_initialize_ml_models`) and the config
  sections other than `normal_ranges` are not modelled: no code path
  relevant to the claims reads them.
* Python exceptions are modelled with `Except PyError`.  On an exception
  the mutations already performed on `self` survive, so
  `detect_anomalies` returns the partially-updated state together with
  the error.  Note that line 344 of the source,
  `max(severities, key=lambda x: severity_scores[x.severity])`, applies
  the key function to elements `x` that are already `AnomalySeverity`
  enum members, which have no attribute `severity`; Python raises
  `AttributeError` there whenever the list of single-parameter results
  has at least two elements, before any combined result is built.  The
  remainder of `_detect_multi_parameter_anomaly` is therefore
  unreachable and is not modelled further.
* Line 380 of the source (`_generate_anomaly_description`) contains
  malformed f-strings (`{value".0f"}`); the numeric interpolation is a
  Python syntax error, so the descriptions are modelled as the fixed
  texts without the interpolated numbers.  No claim inspects the
  description strings.
-/

namespace EnhancedDetection

/-- Model of `class AnomalySeverity(Enum)` (source lines 16-20). -/
inductive AnomalySeverity where
  | low
  | medium
  | high
  | critical
deriving DecidableEq

/-- Model of `class AnomalyType(Enum)` (source lines 22-30). -/
inductive AnomalyType where
  | heart_rate
  | blood_pressure
  | glucose
  | oxygen_saturation
  | temperature
  | respiratory_rate
  | ecg
  | multi_parameter
deriving DecidableEq

/-- Model of `@dataclass AnomalyDetectionResult` (source lines 32-43), minus the
`timestamp` field (see the module conventions). -/
structure AnomalyDetectionResult where
  anomaly_type : AnomalyType
  severity : AnomalySeverity
  confidence : ℚ
  value : ℚ
  normal_range : ℚ × ℚ
  description : String
  recommendations : List String
  risk_factors : List String
deriving DecidableEq

/-- Model of `@dataclass PatientBaseline` (source lines 45-56), minus the
`last_updated` field (see the module conventions). -/
structure PatientBaseline where
  patient_id : String
  heart_rate_baseline : ℚ × ℚ
  blood_pressure_baseline : ℚ × ℚ
  glucose_baseline : ℚ × ℚ
  oxygen_saturation_baseline : ℚ × ℚ
  temperature_baseline : ℚ × ℚ
  respiratory_rate_baseline : ℚ × ℚ
  sample_count : ℕ
deriving DecidableEq

/-- The Python exceptions the claims are about. -/
inductive PyError where
  | attributeError
deriving DecidableEq

instance {ε α : Type} [DecidableEq ε] [DecidableEq α] :
    DecidableEq (Except ε α) := fun a b =>
  match a, b with
  | .ok x, .ok y =>
      if h : x = y then .isTrue (by rw [h]) else .isFalse (by simp [h])
  | .error x, .error y =>
      if h : x = y then .isTrue (by rw [h]) else .isFalse (by simp [h])
  | .ok _, .error _ => .isFalse (by simp)
  | .error _, .ok _ => .isFalse (by simp)

/-- An observation: a dict mapping parameter names to measured values. -/
abbrev HealthData := List (String × ℚ)

/-- The mutable state of an `EnhancedAnomalyDetector` instance:
`self.baselines` and `self.anomaly_history` (source lines 63-64). -/
structure DetectorState where
  baselines : String → Option PatientBaseline
  anomaly_history : String → List AnomalyDetectionResult

/-- A freshly constructed detector: both dicts empty. -/
def initState : DetectorState :=
  { baselines := fun _ => none, anomaly_history := fun _ => [] }

/-- Model of `default_config["normal_ranges"]` (source lines 74-82). -/
def normal_ranges : List (String × (ℚ × ℚ)) :=
  [("heart_rate", (60, 100)),
   ("blood_pressure_systolic", (90, 140)),
   ("blood_pressure_diastolic", (60, 90)),
   ("glucose", (70, 140)),
   ("oxygen_saturation", (95, 100)),
   ("temperature", (36.1, 37.2)),
   ("respiratory_rate", (12, 20))]

/-- The `PatientBaseline(...)` constructed on lines 141-152 when a patient
has no baseline yet: every interval seeded from
`self.config["normal_ranges"]` (the literals below are exactly those
entries), `sample_count = 1`. -/
def freshBaseline (patient_id : String) : PatientBaseline :=
  { patient_id := patient_id
    heart_rate_baseline := (60, 100)
    blood_pressure_baseline := (90, 140)
    glucose_baseline := (70, 140)
    oxygen_saturation_baseline := (95, 100)
    temperature_baseline := (36.1, 37.2)
    respiratory_rate_baseline := (12, 20)
    sample_count := 1 }

/-- One weighted-average interval update (the pattern repeated on source
lines 159-203): if the parameter is present in the observation the
interval moves toward the value, otherwise it is untouched. -/
def maybeUpdate (interval : ℚ × ℚ) (weight_old weight_new : ℚ)
    (v : Option ℚ) : ℚ × ℚ :=
  match v with
  | some x => (interval.1 * weight_old + x * weight_new,
               interval.2 * weight_old + x * weight_new)
  | none => interval

/-- Model of `EnhancedAnomalyDetector.update_patient_baseline` (source lines
132-211).  Returns the new state together with the baseline the method
returns; the six sequential per-field `if param in health_data` updates
of lines 159-203 touch pairwise distinct fields and are written as one
record update. -/
def update_patient_baseline (s : DetectorState) (patient_id : String)
    (health_data : HealthData) : DetectorState × PatientBaseline :=
  let pair : PatientBaseline × ℕ :=
    match s.baselines patient_id with
    | some b => (b, b.sample_count + 1)
    | none => (freshBaseline patient_id, 1)
  let baseline := pair.1
  let sample_count := pair.2
  let weight_new : ℚ := 1 / (sample_count : ℚ)
  let weight_old : ℚ := 1 - weight_new
  let b2 : PatientBaseline :=
    { baseline with
      heart_rate_baseline :=
        maybeUpdate baseline.heart_rate_baseline weight_old weight_new
          (health_data.lookup "heart_rate")
      blood_pressure_baseline :=
        maybeUpdate baseline.blood_pressure_baseline weight_old weight_new
          (health_data.lookup "blood_pressure_systolic")
      glucose_baseline :=
        maybeUpdate baseline.glucose_baseline weight_old weight_new
          (health_data.lookup "glucose")
      oxygen_saturation_baseline :=
        maybeUpdate baseline.oxygen_saturation_baseline weight_old weight_new
          (health_data.lookup "oxygen_saturation")
      temperature_baseline :=
        maybeUpdate baseline.temperature_baseline weight_old weight_new
          (health_data.lookup "temperature")
      respiratory_rate_baseline :=
        maybeUpdate baseline.respiratory_rate_baseline weight_old weight_new
          (health_data.lookup "respiratory_rate")
      sample_count := sample_count }
  ({ s with baselines := fun q => if q = patient_id then some b2 else s.baselines q },
   b2)

/-- The `param_mapping` dict of `_detect_single_parameter_anomaly`
(source lines 259-266). -/
def param_mapping (param : String) (baseline : PatientBaseline) :
    Option (ℚ × ℚ) :=
  if param = "heart_rate" then some baseline.heart_rate_baseline
  else if param = "blood_pressure_systolic" then some baseline.blood_pressure_baseline
  else if param = "glucose" then some baseline.glucose_baseline
  else if param = "oxygen_saturation" then some baseline.oxygen_saturation_baseline
  else if param = "temperature" then some baseline.temperature_baseline
  else if param = "respiratory_rate" then some baseline.respiratory_rate_baseline
  else none

/-- The `type_mapping` dict of `_detect_single_parameter_anomaly`
(source lines 296-303). -/
def type_mapping (param : String) : Option AnomalyType :=
  if param = "heart_rate" then some .heart_rate
  else if param = "blood_pressure_systolic" then some .blood_pressure
  else if param = "glucose" then some .glucose
  else if param = "oxygen_saturation" then some .oxygen_saturation
  else if param = "temperature" then some .temperature
  else if param = "respiratory_rate" then some .respiratory_rate
  else none

/-- Model of `_generate_anomaly_description` (source lines 376-390).  The numeric
interpolation in the source is a Python syntax error (see the module
conventions), so only the fixed text of each description is modelled;
`value` and `normal_range` are kept as (unread) arguments. -/
def generate_anomaly_description (anomaly_type : AnomalyType) (_value : ℚ)
    (_normal_range : ℚ × ℚ) : String :=
  match anomaly_type with
  | .heart_rate => "Heart rate is outside normal range"
  | .blood_pressure => "Blood pressure reading is outside normal range"
  | .glucose => "Glucose level is outside normal range"
  | .oxygen_saturation => "Oxygen saturation is below normal range"
  | .temperature => "Temperature is outside normal range"
  | .respiratory_rate => "Respiratory rate is outside normal range"
  | .ecg => "ECG abnormalities detected"
  | .multi_parameter => "Multiple vital signs showing abnormal readings"

/-- The `base_recommendations` dict of `_generate_recommendations`
(source lines 395-428), including the `.get` default. -/
def base_recommendations (anomaly_type : AnomalyType) : List String :=
  match anomaly_type with
  | .heart_rate =>
      ["Monitor heart rate closely",
       "Rest and avoid strenuous activity",
       "Contact healthcare provider if symptoms persist"]
  | .blood_pressure =>
      ["Monitor blood pressure regularly",
       "Follow prescribed medication schedule",
       "Reduce sodium intake and stress"]
  | .glucose =>
      ["Monitor blood glucose levels",
       "Follow diabetic care plan",
       "Contact healthcare provider for significant changes"]
  | .oxygen_saturation =>
      ["Ensure adequate rest",
       "Monitor breathing patterns",
       "Seek immediate medical attention if below 90%"]
  | .temperature =>
      ["Monitor temperature regularly",
       "Stay hydrated",
       "Rest and avoid temperature extremes"]
  | .respiratory_rate =>
      ["Monitor breathing rate",
       "Ensure adequate rest",
       "Contact healthcare provider if breathing difficulty persists"]
  | _ => ["Monitor condition closely", "Contact healthcare provider"]

/-- Model of `_generate_recommendations` (source lines 392-435): the severity
branch inserts at the front and appends at the back. -/
def generate_recommendations (anomaly_type : AnomalyType)
    (severity : AnomalySeverity) (_value : ℚ) : List String :=
  let recommendations := base_recommendations anomaly_type
  if severity = .high ∨ severity = .critical then
    "Seek immediate medical attention" ::
      (recommendations ++ ["Prepare emergency contact information"])
  else recommendations

/-- Model of `_identify_risk_factors` (source lines 437-460): the four appends in
source order. -/
def identify_risk_factors (anomaly_type : AnomalyType)
    (severity : AnomalySeverity) (value : ℚ) : List String :=
  (if severity = .high ∨ severity = .critical then ["High severity anomaly"] else [])
    ++ (if anomaly_type = .oxygen_saturation ∧ value < 92
        then ["Potential respiratory distress"] else [])
    ++ (if anomaly_type = .heart_rate then
          if value > 120 then ["Tachycardia"]
          else if value < 50 then ["Bradycardia"]
          else []
        else [])
    ++ (if anomaly_type = .blood_pressure then
          if value > 180 then ["Hypertensive crisis"]
          else if value < 90 then ["Hypotension"]
          else []
        else [])

/-- Model of `_detect_single_parameter_anomaly` (source lines 249-322). -/
def detect_single_parameter_anomaly (_patient_id param : String)
    (value : ℚ) (baseline : PatientBaseline) :
    Option AnomalyDetectionResult :=
  match param_mapping param baseline with
  | none => none
  | some (normal_min, normal_max) =>
    if normal_min ≤ value ∧ value ≤ normal_max then none
    else
      let deviation := max |value - normal_min| |value - normal_max|
      let max_range := max (normal_max - normal_min) 1
      let relative_deviation := deviation / max_range
      let severity : AnomalySeverity :=
        if relative_deviation < 0.1 then .low
        else if relative_deviation < 0.25 then .medium
        else if relative_deviation < 0.5 then .high
        else .critical
      let confidence := min 0.95 (0.5 + relative_deviation)
      let anomaly_type := (type_mapping param).getD .multi_parameter
      some
        { anomaly_type := anomaly_type
          severity := severity
          confidence := confidence
          value := value
          normal_range := (normal_min, normal_max)
          description := generate_anomaly_description anomaly_type value
            (normal_min, normal_max)
          recommendations := generate_recommendations anomaly_type severity value
          risk_factors := identify_risk_factors anomaly_type severity value }

/-- Model of `_detect_multi_parameter_anomaly` (source lines 324-374).  With fewer
than two single results it returns `None`; otherwise evaluating
`max(severities, key=lambda x: severity_scores[x.severity])` on line 344
raises `AttributeError` (the key is applied to `AnomalySeverity` members,
which have no attribute `severity`), so the rest of the body is
unreachable. -/
def detect_multi_parameter_anomaly (_patient_id : String)
    (_health_data : HealthData)
    (single_results : List AnomalyDetectionResult) :
    Except PyError (Option AnomalyDetectionResult) :=
  if single_results.length < 2 then .ok none
  else .error .attributeError

/-- The history-recording tail of `detect_anomalies` (source lines
237-247): initialise a missing history entry, extend it with the new
results, keep only the last 100 entries, and return the results. -/
def recordHistory (s : DetectorState) (patient_id : String)
    (results : List AnomalyDetectionResult) :
    DetectorState × Except PyError (List AnomalyDetectionResult) :=
  let h1 := s.anomaly_history patient_id ++ results
  let h2 := if h1.length > 100 then h1.drop (h1.length - 100) else h1
  ({ s with anomaly_history :=
      fun q => if q = patient_id then h2 else s.anomaly_history q },
   .ok results)

/-- Lines 217-221 of `detect_anomalies`: get the existing baseline, or
create one from the observation (`update_patient_baseline` both stores
and returns it). -/
def baselineFor (s : DetectorState) (patient_id : String)
    (health_data : HealthData) : DetectorState × PatientBaseline :=
  match s.baselines patient_id with
  | some b => (s, b)
  | none => update_patient_baseline s patient_id health_data

/-- Lines 224-229 of `detect_anomalies`: the per-parameter loop, keeping
the non-`None` single-parameter results in observation order. -/
def singleResults (patient_id : String) (health_data : HealthData)
    (baseline : PatientBaseline) : List AnomalyDetectionResult :=
  health_data.filterMap fun pv =>
    detect_single_parameter_anomaly patient_id pv.1 pv.2 baseline

/-- Model of `EnhancedAnomalyDetector.detect_anomalies` (source lines 213-247).
When the multi-parameter step raises, the exception propagates to the
caller; the baseline created on line 219 survives (it was assigned to
`self`), while the history is untouched (lines 237-245 never run). -/
def detect_anomalies (s : DetectorState) (patient_id : String)
    (health_data : HealthData) :
    DetectorState × Except PyError (List AnomalyDetectionResult) :=
  let sb := baselineFor s patient_id health_data
  let results := singleResults patient_id health_data sb.2
  if results.length > 1 then
    match detect_multi_parameter_anomaly patient_id health_data results with
    | .error e => (sb.1, .error e)
    | .ok (some m) => recordHistory sb.1 patient_id (results ++ [m])
    | .ok none => recordHistory sb.1 patient_id results
  else recordHistory sb.1 patient_id results

/-- A sequence of `detect_anomalies` calls threaded through the state
(the returned result lists are discarded). -/
def runCalls (s : DetectorState) (calls : List (String × HealthData)) :
    DetectorState :=
  calls.foldl (fun st c => (detect_anomalies st c.1 c.2).1) s

/-- Every per-parameter interval of a baseline is well-formed
(minimum ≤ maximum). -/
def intervalsLE (b : PatientBaseline) : Prop :=
  b.heart_rate_baseline.1 ≤ b.heart_rate_baseline.2 ∧
  b.blood_pressure_baseline.1 ≤ b.blood_pressure_baseline.2 ∧
  b.glucose_baseline.1 ≤ b.glucose_baseline.2 ∧
  b.oxygen_saturation_baseline.1 ≤ b.oxygen_saturation_baseline.2 ∧
  b.temperature_baseline.1 ≤ b.temperature_baseline.2 ∧
  b.respiratory_rate_baseline.1 ≤ b.respiratory_rate_baseline.2

instance (b : PatientBaseline) : Decidable (intervalsLE b) := by
  unfold intervalsLE; infer_instance

/-- The detector state after processing an empty observation for
subject `"p1"`: the subject now has a baseline that still carries
exactly the seeded normal ranges (no parameter was present, so no
interval moved). -/
def seededState : DetectorState :=
  (detect_anomalies initState "p1" ([] : HealthData)).1

/-- The detector state after one observation `{heart_rate: 80}` for
subject `"p1"`: the first observation creates the baseline with weight
`1/1`, collapsing the heart-rate interval to `(80, 80)`. -/
def collapsedState : DetectorState :=
  (detect_anomalies initState "p1" [("heart_rate", 80)]).1

end EnhancedDetection

namespace EnhancedDetection

/-! ### Structural lemmas -/

theorem recordHistory_snd (s : DetectorState) (pid : String)
    (rs : List AnomalyDetectionResult) :
    (recordHistory s pid rs).2 = .ok rs := rfl

theorem recordHistory_baselines (s : DetectorState) (pid : String)
    (rs : List AnomalyDetectionResult) :
    (recordHistory s pid rs).1.baselines = s.baselines := rfl

theorem update_patient_baseline_preserves_history (s : DetectorState)
    (pid : String) (hd : HealthData) :
    (update_patient_baseline s pid hd).1.anomaly_history =
      s.anomaly_history := rfl

theorem baselineFor_preserves_history (s : DetectorState) (pid : String)
    (hd : HealthData) :
    (baselineFor s pid hd).1.anomaly_history = s.anomaly_history := by
  unfold baselineFor
  cases s.baselines pid <;> rfl

theorem detect_anomalies_of_le_one (s : DetectorState) (pid : String)
    (hd : HealthData)
    (h : (singleResults pid hd (baselineFor s pid hd).2).length ≤ 1) :
    detect_anomalies s pid hd =
      recordHistory (baselineFor s pid hd).1 pid
        (singleResults pid hd (baselineFor s pid hd).2) := by
  simp only [detect_anomalies]
  rw [if_neg (by omega)]

theorem detect_anomalies_of_two (s : DetectorState) (pid : String)
    (hd : HealthData)
    (h : 2 ≤ (singleResults pid hd (baselineFor s pid hd).2).length) :
    detect_anomalies s pid hd =
      ((baselineFor s pid hd).1, .error .attributeError) := by
  simp only [detect_anomalies, detect_multi_parameter_anomaly]
  rw [if_pos (by omega), if_neg (by omega)]

theorem detect_single_none_of_within (pid p : String) (v : ℚ)
    (b : PatientBaseline)
    (h : ∀ lo hi, param_mapping p b = some (lo, hi) → lo ≤ v ∧ v ≤ hi) :
    detect_single_parameter_anomaly pid p v b = none := by
  unfold detect_single_parameter_anomaly
  cases hm : param_mapping p b with
  | none => rfl
  | some r =>
    obtain ⟨lo, hi⟩ := r
    simp only [hm]
    rw [if_pos (h lo hi hm)]

theorem detect_single_confidence_bounds (pid p : String) (v : ℚ)
    (b : PatientBaseline) (r : AnomalyDetectionResult)
    (h : detect_single_parameter_anomaly pid p v b = some r) :
    0 ≤ r.confidence ∧ r.confidence ≤ 0.95 := by
  unfold detect_single_parameter_anomaly at h
  cases hm : param_mapping p b with
  | none => rw [hm] at h; exact absurd h (by simp)
  | some lohi =>
    obtain ⟨lo, hi⟩ := lohi
    simp only [hm] at h
    by_cases hin : lo ≤ v ∧ v ≤ hi
    · rw [if_pos hin] at h; exact absurd h (by simp)
    · rw [if_neg hin] at h
      have hc : r.confidence =
          min 0.95 (0.5 + max |v - lo| |v - hi| / max (hi - lo) 1) := by
        cases h; rfl
      have hdev : (0 : ℚ) ≤ max |v - lo| |v - hi| :=
        le_trans (abs_nonneg _) (le_max_left _ _)
      have hrange : (0 : ℚ) ≤ max (hi - lo) 1 :=
        le_trans zero_le_one (le_max_right _ _)
      constructor
      · rw [hc]
        exact le_min (by norm_num)
          (add_nonneg (by norm_num) (div_nonneg hdev hrange))
      · rw [hc]; exact min_le_left _ _

end EnhancedDetection

namespace EnhancedDetection

attribute [local semireducible] Rat.add Rat.mul Rat.inv Rat.sub Rat.ofScientific

/-! ### Claim C1 -/

/-- Claim C1 (amended): for every subject that already has a baseline,
an observation all of whose measured values lie within the corresponding
intervals of that stored baseline makes `detect_anomalies` return an
empty result list.  (The claim as frozen speaks of the seeded normal
ranges and of arbitrary prior history; the counterexample below shows
that version is false, because the baseline created from the first
observation, not the seeded range, is what detection compares
against.) -/
theorem claim_C1 (s : DetectorState) (pid : String) (hd : HealthData)
    (b : PatientBaseline) (hb : s.baselines pid = some b)
    (hin : ∀ p v, (p, v) ∈ hd →
      ∀ lo hi, param_mapping p b = some (lo, hi) → lo ≤ v ∧ v ≤ hi) :
    (detect_anomalies s pid hd).2 = .ok [] := by
  have hsb : baselineFor s pid hd = (s, b) := by
    unfold baselineFor; rw [hb]
  have hres : singleResults pid hd b = [] := by
    unfold singleResults
    rw [List.filterMap_eq_nil_iff]
    intro pv hpv
    refine detect_single_none_of_within pid pv.1 pv.2 b ?_
    exact hin pv.1 pv.2 (by simpa using hpv)
  rw [detect_anomalies_of_le_one s pid hd (by rw [hsb, hres]; simp),
    recordHistory_snd, hsb, hres]

/-- Witness for C1: subject `"p1"` in `seededState` has the seeded
baseline, the observation `{heart_rate: 70}` lies within its heart-rate
interval `(60, 100)`, and processing it returns the empty result
list. -/
theorem claim_C1_witness :
    (seededState.baselines "p1" = some (freshBaseline "p1")) ∧
    (detect_anomalies seededState "p1" [("heart_rate", 70)]).2 = .ok [] :=
  ⟨by decide, claim_C1 seededState "p1" [("heart_rate", 70)]
    (freshBaseline "p1") (by decide)
    (by intro p v hpv lo hi hm
        simp only [List.mem_singleton, Prod.mk.injEq] at hpv
        obtain ⟨hp, hv⟩ := hpv
        subst hp; subst hv
        rw [show param_mapping "heart_rate" (freshBaseline "p1") =
          some (60, 100) from rfl] at hm
        cases hm
        exact ⟨by norm_num, by norm_num⟩)⟩

/-- Counterexample to C1 as frozen: subject `"p1"` has had one prior
observation `{heart_rate: 80}` (itself within the seeded range
`(60, 100)` recorded in `normal_ranges`); the next observation
`{heart_rate: 70}` also lies within the seeded range, yet
`detect_anomalies` does not return an empty result list — the stored
baseline had collapsed to `(80, 80)`. -/
theorem claim_C1_counterexample :
    (normal_ranges.lookup "heart_rate" = some (60, 100)) ∧
    ((60 : ℚ) ≤ 80 ∧ (80 : ℚ) ≤ 100) ∧
    ((60 : ℚ) ≤ 70 ∧ (70 : ℚ) ≤ 100) ∧
    (detect_anomalies collapsedState "p1" [("heart_rate", 70)]).2 ≠
      .ok [] := by decide

/-! ### Claim C2 -/

/-- Claim C2 (code bug): on an observation that yields two
single-parameter anomaly results, `detect_anomalies` does not produce a
multi-parameter result at all — `_detect_multi_parameter_anomaly`
raises `AttributeError` (line 344 evaluates `severity_scores[x.severity]`
with `x` an `AnomalySeverity` member, which has no attribute
`severity`), so the call fails instead of returning a combined result
with the maximum contributing severity. -/
theorem claim_C2_code_bug :
    (singleResults "p1" [("heart_rate", 130), ("glucose", 300)]
      (freshBaseline "p1")).length = 2 ∧
    (detect_anomalies seededState "p1"
      [("heart_rate", 130), ("glucose", 300)]).2 =
      .error .attributeError := by decide

/-! ### Claim C3 -/

/-- Claim C3 (code bug): `detect_anomalies` does not always complete
without an unhandled exception.  For subject `"p1"` (holding the seeded
baseline) the observation `{heart_rate: 40, oxygen_saturation: 80}`
yields two single-parameter anomalies, and the multi-parameter step then
raises `AttributeError`, which propagates to the caller. -/
theorem claim_C3_code_bug :
    (detect_anomalies seededState "p1"
      [("heart_rate", 40), ("oxygen_saturation", 80)]).2 =
      .error .attributeError := by decide

/-! ### Claim C4 -/

/-- Claim C4: every anomaly result in a successfully returned result
list of `detect_anomalies` has confidence in `[0, 0.95]`.  (Single
results carry `min(0.95, 0.5 + relative_deviation)`; a returned list
never contains a multi-parameter result, since building one raises
before completion, so the bound holds for everything produced.) -/
theorem claim_C4 (s : DetectorState) (pid : String) (hd : HealthData)
    (rs : List AnomalyDetectionResult)
    (h : (detect_anomalies s pid hd).2 = .ok rs) :
    ∀ r ∈ rs, 0 ≤ r.confidence ∧ r.confidence ≤ 0.95 := by
  rcases le_or_lt (singleResults pid hd (baselineFor s pid hd).2).length 1
    with hle | hgt
  · rw [detect_anomalies_of_le_one s pid hd hle, recordHistory_snd] at h
    cases h
    intro r hr
    simp only [singleResults, List.mem_filterMap] at hr
    obtain ⟨pv, _, hdet⟩ := hr
    exact detect_single_confidence_bounds pid pv.1 pv.2 _ r hdet
  · rw [detect_anomalies_of_two s pid hd hgt] at h
    exact absurd h (by simp)

/-- Witness for C4: processing `{heart_rate: 130}` for subject `"p1"`
in `seededState` succeeds, and every returned result has confidence in
`[0, 0.95]`. -/
theorem claim_C4_witness :
    ∃ rs, (detect_anomalies seededState "p1" [("heart_rate", 130)]).2 =
        .ok rs ∧
      ∀ r ∈ rs, 0 ≤ r.confidence ∧ r.confidence ≤ 0.95 :=
  ⟨_, rfl, claim_C4 seededState "p1" [("heart_rate", 130)] _ rfl⟩

/-! ### Claim C5 -/

/-- Claim C5 (amended): `detect_anomalies` creates the subject's
baseline from the observation only when the subject has none; for a
subject that already has a stored baseline the call leaves that baseline
— bounds and sample count alike — completely unchanged. -/
theorem claim_C5 (s : DetectorState) (pid : String) (hd : HealthData)
    (b : PatientBaseline) (hb : s.baselines pid = some b) :
    (detect_anomalies s pid hd).1.baselines pid = some b := by
  have hsb : baselineFor s pid hd = (s, b) := by
    unfold baselineFor; rw [hb]
  rcases le_or_lt (singleResults pid hd (baselineFor s pid hd).2).length 1
    with hle | hgt
  · rw [detect_anomalies_of_le_one s pid hd hle, recordHistory_baselines,
      hsb]
    exact hb
  · rw [detect_anomalies_of_two s pid hd hgt, hsb]
    exact hb

/-- Witness for C5 (amended): subject `"p1"` in `collapsedState` has a
stored baseline; after another `detect_anomalies` call it is still
exactly that baseline. -/
theorem claim_C5_witness :
    (collapsedState.baselines "p1" =
      some ((update_patient_baseline initState "p1"
        [("heart_rate", 80)]).2)) ∧
    (detect_anomalies collapsedState "p1" [("heart_rate", 90)]).1.baselines
        "p1" =
      some ((update_patient_baseline initState "p1"
        [("heart_rate", 80)]).2) :=
  ⟨by decide, claim_C5 collapsedState "p1" [("heart_rate", 90)] _
    (by decide)⟩

/-- Counterexample to C5 as frozen: after a second `detect_anomalies`
call for subject `"p1"` the stored baseline is bitwise unchanged and its
sample count is still 1 — it did not increase. -/
theorem claim_C5_counterexample :
    ((detect_anomalies collapsedState "p1"
        [("heart_rate", 90)]).1.baselines "p1" =
      collapsedState.baselines "p1") ∧
    (collapsedState.baselines "p1").map PatientBaseline.sample_count =
      some 1 := by decide


/-! ### Claim C6 -/

theorem maybeUpdate_le (iv : ℚ × ℚ) (wo wn : ℚ) (v : Option ℚ)
    (hiv : iv.1 ≤ iv.2) (hwo : 0 ≤ wo) :
    (maybeUpdate iv wo wn v).1 ≤ (maybeUpdate iv wo wn v).2 := by
  cases v with
  | none => exact hiv
  | some x =>
    simpa [maybeUpdate] using
      add_le_add_right (mul_le_mul_of_nonneg_right hiv hwo) (x * wn)

theorem weight_old_nonneg (n : ℕ) :
    (0 : ℚ) ≤ 1 - 1 / ((n + 1 : ℕ) : ℚ) := by
  rw [sub_nonneg]
  apply div_le_one_of_le₀
  · exact_mod_cast Nat.succ_le_succ (Nat.zero_le n)
  · positivity

/-- Claim C6: whenever every stored baseline of the subject (if any) has
well-formed intervals, `update_patient_baseline` yields a baseline whose
intervals are all still well-formed (minimum ≤ maximum), stores exactly
that baseline, and never decreases the sample count of a pre-existing
baseline. -/
theorem claim_C6 (s : DetectorState) (pid : String) (hd : HealthData)
    (h : ∀ b, s.baselines pid = some b → intervalsLE b) :
    intervalsLE (update_patient_baseline s pid hd).2 ∧
    (update_patient_baseline s pid hd).1.baselines pid =
      some (update_patient_baseline s pid hd).2 ∧
    (∀ b, s.baselines pid = some b →
      b.sample_count ≤ (update_patient_baseline s pid hd).2.sample_count) := by
  cases hb : s.baselines pid with
  | none =>
    refine ⟨?_, by simp [update_patient_baseline, hb], ?_⟩
    · simp only [update_patient_baseline, hb, intervalsLE]
      refine ⟨?_, ?_, ?_, ?_, ?_, ?_⟩ <;>
        · apply maybeUpdate_le
          · norm_num [freshBaseline]
          · exact weight_old_nonneg 0
    · intro b hbb; exact absurd hbb (by simp)
  | some b =>
    have hble := h b hb
    refine ⟨?_, by simp [update_patient_baseline, hb], ?_⟩
    · simp only [update_patient_baseline, hb, intervalsLE]
      obtain ⟨h1, h2, h3, h4, h5, h6⟩ := hble
      refine ⟨?_, ?_, ?_, ?_, ?_, ?_⟩ <;>
        refine maybeUpdate_le _ _ _ _ ?_ (weight_old_nonneg b.sample_count)
      exacts [h1, h2, h3, h4, h5, h6]
    · intro c hc
      cases hc
      simp only [update_patient_baseline, hb]
      exact Nat.le_succ _

/-- Witness for C6: updating subject `"p1"` of `seededState` (whose only
baseline is the seeded one, with well-formed intervals) with
`{heart_rate: 90}` keeps every interval well-formed, stores the result,
and does not decrease the sample count. -/
theorem claim_C6_witness :
    intervalsLE (update_patient_baseline seededState "p1"
      [("heart_rate", 90)]).2 ∧
    (update_patient_baseline seededState "p1"
        [("heart_rate", 90)]).1.baselines "p1" =
      some (update_patient_baseline seededState "p1"
        [("heart_rate", 90)]).2 ∧
    (∀ b, seededState.baselines "p1" = some b →
      b.sample_count ≤ (update_patient_baseline seededState "p1"
        [("heart_rate", 90)]).2.sample_count) :=
  claim_C6 seededState "p1" [("heart_rate", 90)] (fun b hb => by
    rw [(by decide : seededState.baselines "p1" =
      some (freshBaseline "p1"))] at hb
    cases hb
    decide)

/-! ### Claim C8 -/

/-- Claim C8: `update_patient_baseline` leaves the interval of every
parameter that is absent from the observation exactly as it was in the
subject's stored baseline. -/
theorem claim_C8 (s : DetectorState) (pid : String) (hd : HealthData)
    (b : PatientBaseline) (hb : s.baselines pid = some b) :
    (hd.lookup "heart_rate" = none →
      (update_patient_baseline s pid hd).2.heart_rate_baseline =
        b.heart_rate_baseline) ∧
    (hd.lookup "blood_pressure_systolic" = none →
      (update_patient_baseline s pid hd).2.blood_pressure_baseline =
        b.blood_pressure_baseline) ∧
    (hd.lookup "glucose" = none →
      (update_patient_baseline s pid hd).2.glucose_baseline =
        b.glucose_baseline) ∧
    (hd.lookup "oxygen_saturation" = none →
      (update_patient_baseline s pid hd).2.oxygen_saturation_baseline =
        b.oxygen_saturation_baseline) ∧
    (hd.lookup "temperature" = none →
      (update_patient_baseline s pid hd).2.temperature_baseline =
        b.temperature_baseline) ∧
    (hd.lookup "respiratory_rate" = none →
      (update_patient_baseline s pid hd).2.respiratory_rate_baseline =
        b.respiratory_rate_baseline) := by
  refine ⟨?_, ?_, ?_, ?_, ?_, ?_⟩ <;>
    · intro hnone
      simp [update_patient_baseline, hb, hnone, maybeUpdate]

/-- Witness for C8: updating subject `"p1"` of `seededState` with an
observation containing only `glucose` leaves the other five intervals of
the stored baseline untouched. -/
theorem claim_C8_witness :
    (([("glucose", (500 : ℚ))] : HealthData).lookup "heart_rate" = none →
      (update_patient_baseline seededState "p1"
        [("glucose", 500)]).2.heart_rate_baseline =
        (freshBaseline "p1").heart_rate_baseline) ∧
    (([("glucose", (500 : ℚ))] : HealthData).lookup "blood_pressure_systolic" =
        none →
      (update_patient_baseline seededState "p1"
        [("glucose", 500)]).2.blood_pressure_baseline =
        (freshBaseline "p1").blood_pressure_baseline) ∧
    (([("glucose", (500 : ℚ))] : HealthData).lookup "glucose" = none →
      (update_patient_baseline seededState "p1"
        [("glucose", 500)]).2.glucose_baseline =
        (freshBaseline "p1").glucose_baseline) ∧
    (([("glucose", (500 : ℚ))] : HealthData).lookup "oxygen_saturation" =
        none →
      (update_patient_baseline seededState "p1"
        [("glucose", 500)]).2.oxygen_saturation_baseline =
        (freshBaseline "p1").oxygen_saturation_baseline) ∧
    (([("glucose", (500 : ℚ))] : HealthData).lookup "temperature" = none →
      (update_patient_baseline seededState "p1"
        [("glucose", 500)]).2.temperature_baseline =
        (freshBaseline "p1").temperature_baseline) ∧
    (([("glucose", (500 : ℚ))] : HealthData).lookup "respiratory_rate" =
        none →
      (update_patient_baseline seededState "p1"
        [("glucose", 500)]).2.respiratory_rate_baseline =
        (freshBaseline "p1").respiratory_rate_baseline) :=
  claim_C8 seededState "p1" [("glucose", 500)] (freshBaseline "p1")
    (by decide)


/-! ### Claim C7 -/

theorem recordHistory_length_le (s : DetectorState) (pid : String)
    (rs : List AnomalyDetectionResult) :
    ((recordHistory s pid rs).1.anomaly_history pid).length ≤ 100 := by
  have hh : (recordHistory s pid rs).1.anomaly_history pid =
      (if (s.anomaly_history pid ++ rs).length > 100
       then (s.anomaly_history pid ++ rs).drop
         ((s.anomaly_history pid ++ rs).length - 100)
       else s.anomaly_history pid ++ rs) := by
    simp [recordHistory]
  rw [hh]
  split
  · rw [List.length_drop]; omega
  · omega

theorem recordHistory_other (s : DetectorState) (pid : String)
    (rs : List AnomalyDetectionResult) (q : String) (hq : q ≠ pid) :
    (recordHistory s pid rs).1.anomaly_history q = s.anomaly_history q := by
  simp [recordHistory, hq]

theorem recordHistory_suffix (s : DetectorState) (pid : String)
    (rs : List AnomalyDetectionResult) :
    (recordHistory s pid rs).1.anomaly_history pid <:+
      s.anomaly_history pid ++ rs := by
  have hh : (recordHistory s pid rs).1.anomaly_history pid =
      (if (s.anomaly_history pid ++ rs).length > 100
       then (s.anomaly_history pid ++ rs).drop
         ((s.anomaly_history pid ++ rs).length - 100)
       else s.anomaly_history pid ++ rs) := by
    simp [recordHistory]
  rw [hh]
  split
  · exact List.drop_suffix _ _
  · exact List.suffix_refl _

theorem detect_anomalies_history_le (s : DetectorState) (pid : String)
    (hd : HealthData)
    (hinv : ∀ q, (s.anomaly_history q).length ≤ 100) (q : String) :
    ((detect_anomalies s pid hd).1.anomaly_history q).length ≤ 100 := by
  rcases le_or_lt (singleResults pid hd (baselineFor s pid hd).2).length 1
    with hle | hgt
  · rw [detect_anomalies_of_le_one s pid hd hle]
    by_cases hq : q = pid
    · subst hq; exact recordHistory_length_le _ _ _
    · rw [recordHistory_other _ _ _ _ hq, baselineFor_preserves_history]
      exact hinv q
  · rw [detect_anomalies_of_two s pid hd hgt]
    show (((baselineFor s pid hd).1.anomaly_history) q).length ≤ 100
    rw [baselineFor_preserves_history]
    exact hinv q

/-- Claim C7: starting from a fresh detector, after any sequence of
`detect_anomalies` calls no subject's anomaly history holds more than
100 entries; and whenever a call returns successfully, the subject's new
history is a suffix of the old history followed by the returned results
(eviction, when it happens, removes only the oldest entries). -/
theorem claim_C7 :
    (∀ (calls : List (String × HealthData)) (q : String),
      ((runCalls initState calls).anomaly_history q).length ≤ 100) ∧
    (∀ (s : DetectorState) (pid : String) (hd : HealthData)
        (rs : List AnomalyDetectionResult),
      (detect_anomalies s pid hd).2 = .ok rs →
      (detect_anomalies s pid hd).1.anomaly_history pid <:+
        s.anomaly_history pid ++ rs) := by
  constructor
  · have main : ∀ (calls : List (String × HealthData)) (s : DetectorState),
        (∀ q, (s.anomaly_history q).length ≤ 100) →
        ∀ q, ((runCalls s calls).anomaly_history q).length ≤ 100 := by
      intro calls
      induction calls with
      | nil => intro s hs; exact hs
      | cons c cs ih =>
        intro s hs
        simp only [runCalls, List.foldl_cons]
        exact ih _ (fun q => detect_anomalies_history_le s c.1 c.2 hs q)
    intro calls q
    exact main calls initState (fun _ => by simp [initState]) q
  · intro s pid hd rs h
    rcases le_or_lt (singleResults pid hd (baselineFor s pid hd).2).length 1
      with hle | hgt
    · rw [detect_anomalies_of_le_one s pid hd hle] at h ⊢
      rw [recordHistory_snd] at h
      cases h
      have hsfx := recordHistory_suffix (baselineFor s pid hd).1 pid
        (singleResults pid hd (baselineFor s pid hd).2)
      rwa [baselineFor_preserves_history] at hsfx
    · rw [detect_anomalies_of_two s pid hd hgt] at h
      exact absurd h (by simp)

/-- Witness for C7's second part: the call returning `.ok []` for a
fresh subject leaves a history that is a suffix of the old history plus
the returned results. -/
theorem claim_C7_witness :
    ((detect_anomalies initState "p1" [("heart_rate", 80)]).2 = .ok []) ∧
    (detect_anomalies initState "p1" [("heart_rate", 80)]).1.anomaly_history
        "p1" <:+
      initState.anomaly_history "p1" ++ [] :=
  ⟨by decide,
   claim_C7.2 initState "p1" [("heart_rate", 80)] [] (by decide)⟩

/-! ### Claim C9 -/

/-- Claim C9: for subject `"p1"` whose stored baseline carries the
seeded heart-rate interval `(60, 100)`, processing `{heart_rate: 130}`
returns exactly one result, of type `heart_rate`, severity `critical`,
confidence `0.95`, with `"Tachycardia"` among its risk factors. -/
theorem claim_C9 (s : DetectorState) (b : PatientBaseline)
    (hb : s.baselines "p1" = some b)
    (hhr : b.heart_rate_baseline = (60, 100)) :
    ∃ r, (detect_anomalies s "p1" [("heart_rate", 130)]).2 = .ok [r] ∧
      r.anomaly_type = .heart_rate ∧ r.severity = .critical ∧
      r.confidence = 0.95 ∧ "Tachycardia" ∈ r.risk_factors := by
  have hsb : baselineFor s "p1" [("heart_rate", 130)] = (s, b) := by
    unfold baselineFor; rw [hb]
  have hsingle : detect_single_parameter_anomaly "p1" "heart_rate" 130 b =
      detect_single_parameter_anomaly "p1" "heart_rate" 130
        (freshBaseline "p1") := by
    unfold detect_single_parameter_anomaly param_mapping
    rw [hhr]
    rfl
  have hres : singleResults "p1" [("heart_rate", 130)] b =
      singleResults "p1" [("heart_rate", 130)] (freshBaseline "p1") := by
    simp only [singleResults, List.filterMap_cons, List.filterMap_nil,
      hsingle]
  have hlen : (singleResults "p1" [("heart_rate", 130)]
      (baselineFor s "p1" [("heart_rate", 130)]).2).length ≤ 1 := by
    rw [hsb]
    show (singleResults "p1" [("heart_rate", 130)] b).length ≤ 1
    rw [hres]
    decide
  rw [detect_anomalies_of_le_one s "p1" [("heart_rate", 130)] hlen,
    recordHistory_snd, hsb]
  show ∃ r, Except.ok (singleResults "p1" [("heart_rate", 130)] b) =
    .ok [r] ∧ _
  rw [hres]
  exact ⟨_, rfl, by decide, by decide, by decide, by decide⟩

/-- Witness for C9 at the concrete state `seededState`, where `"p1"`
holds the seeded baseline with heart-rate interval `(60, 100)`. -/
theorem claim_C9_witness :
    (seededState.baselines "p1" = some (freshBaseline "p1")) ∧
    ∃ r, (detect_anomalies seededState "p1" [("heart_rate", 130)]).2 =
        .ok [r] ∧
      r.anomaly_type = .heart_rate ∧ r.severity = .critical ∧
      r.confidence = 0.95 ∧ "Tachycardia" ∈ r.risk_factors :=
  ⟨by decide,
   claim_C9 seededState (freshBaseline "p1") (by decide) (by decide)⟩

/-! ### Claim C10 -/

theorem param_mapping_bpd (b : PatientBaseline) :
    param_mapping "blood_pressure_diastolic" b = none := by
  unfold param_mapping
  rw [if_neg (by decide), if_neg (by decide), if_neg (by decide),
    if_neg (by decide), if_neg (by decide), if_neg (by decide)]

theorem detect_single_bpd (pid : String) (v : ℚ) (b : PatientBaseline) :
    detect_single_parameter_anomaly pid "blood_pressure_diastolic" v b =
      none := by
  unfold detect_single_parameter_anomaly
  rw [param_mapping_bpd]

/-- Claim C10: the configuration's `normal_ranges` carries the entry
`(60, 90)` for `blood_pressure_diastolic`, yet the single-parameter
detector maps no baseline interval to that name and returns `None` for
every value and every baseline, so an observation consisting of a
`blood_pressure_diastolic` measurement produces no anomaly result from
`detect_anomalies` in any state. -/
theorem claim_C10 :
    (normal_ranges.lookup "blood_pressure_diastolic" = some (60, 90)) ∧
    (∀ (pid : String) (v : ℚ) (b : PatientBaseline),
      detect_single_parameter_anomaly pid "blood_pressure_diastolic" v b =
        none) ∧
    (∀ (s : DetectorState) (pid : String) (v : ℚ),
      (detect_anomalies s pid [("blood_pressure_diastolic", v)]).2 =
        .ok []) := by
  refine ⟨by decide, detect_single_bpd, ?_⟩
  intro s pid v
  have hres : ∀ b : PatientBaseline,
      singleResults pid [("blood_pressure_diastolic", v)] b = [] := by
    intro b; simp [singleResults, detect_single_bpd]
  rw [detect_anomalies_of_le_one s pid [("blood_pressure_diastolic", v)]
    (by rw [hres]; simp), recordHistory_snd, hres]

end EnhancedDetection
